import Mathlib

/-!
Verification of the extraction and fallback-orchestration engine of the
Web_Scraper_App repository (src/app.py), as a shallow embedding in Lean 4.

The embedding follows the source file:
  * `extract_data_from_elements` (app.py lines 39-91): the Value Resolver and
    Result Builder;
  * `scrape_beautifulsoup` (lines 97-146): the static fetch strategy;
  * `scrape_selenium` (lines 148-203): the rendered fetch strategy with its
    try/finally driver release;
  * `scrape_auto` (lines 205-234): the fallback orchestrator;
  * `export_csv` (lines 255-315): the export formatter;
  * `setup_chrome_driver` (lines 22-37): modelled by the list of Chrome
    command-line arguments it configures.

External effects (HTTP, the browser) are abstracted as oracle functions
supplied to each handler: the document returned by `requests.get` becomes a
function from CSS selectors to element lists, and the Selenium driver steps
(setup, navigation, explicit wait, find) become per-step outcome oracles that
may succeed, raise `WebDriverException`, or raise another exception, exactly
following which `except` clause of the source would catch them.
-/

set_option autoImplicit false

namespace WebScraper

/-- Value returned by BeautifulSoup `el.get(name)`: either a plain string or,
for multi-valued attributes such as `class`, a list of tokens. -/
inductive BsVal where
  | str (v : String)
  | tokens (vs : List String)
deriving Repr, DecidableEq

/-- Python `str.lower()`, modelled character-wise (faithful on the ASCII
attribute names the handlers compare against). -/
def pyLower (s : String) : String := ⟨s.data.map Char.toLower⟩

/-- Python `str.strip()` with no argument: remove leading and trailing
whitespace. -/
def pyStrip (s : String) : String :=
  ⟨((s.data.dropWhile Char.isWhitespace).reverse.dropWhile Char.isWhitespace).reverse⟩

/-- Character containment in a string (Python `c in s`), used by the CSV
quoting rule. -/
def strContainsChar (s : String) (c : Char) : Bool := s.data.contains c

/-- Python `repr` of one string token, as it appears inside `str(list)`.
(Escaping of quote characters inside the token is not modelled; no claim
depends on it.) -/
def pyReprToken (s : String) : String := "\x27" ++ s ++ "\x27"

/-- Python `str` applied to a list of strings, e.g. `str(['a','b'])` is
`"['a', 'b']"`.  This is what line 69's `str(value)` produces when
BeautifulSoup returned a token list for an attr other than `class`. -/
def pyStrList (vs : List String) : String :=
  "[" ++ String.intercalate ", " (vs.map pyReprToken) ++ "]"

/-- A matched element handle.  `text` is the element's text content
(`el.text` under Selenium, the text joined by `get_text` under
BeautifulSoup; both code paths strip it, modelled by `pyStrip`).
`bsGet` is BeautifulSoup `el.get`; `getAttribute` / `getProperty` are the
Selenium lookups (`get_property` results are modelled already stringified).
`fault` marks an element whose resolution raises an unexpected exception,
landing in the `except` clause at app.py line 83. -/
structure Element where
  text : String
  bsGet : String → Option BsVal
  getAttribute : String → Option String
  getProperty : String → Option String
  fault : Bool

/-- The `value` computed by app.py lines 45-64 for one element, before the
placeholder logic: `none` models Python `None`.  The stringification of a
BeautifulSoup token list (line 69's `str(value)`) is folded in here, since
everything else reaching line 69 is already a string. -/
def resolveValue (el : Element) (attr : String) (method : String) : Option String :=
  if method = "selenium" then
    if pyLower attr = "text content" then
      some (pyStrip el.text)
    else
      match el.getAttribute (pyLower attr) with
      | some s => if s = "" then el.getProperty (pyLower attr) else some s
      | none => el.getProperty (pyLower attr)
  else
    if pyLower attr = "text content" then
      some (pyStrip el.text)
    else
      match el.bsGet (pyLower attr) with
      | some (.str s) => some s
      | some (.tokens vs) =>
          if pyLower attr = "class" then some (String.intercalate " " vs)
          else some (pyStrList vs)
      | none => none

/-- The string recorded for one element: app.py lines 44-89.  A `fault`
element takes the `except` path (line 83) and records the error placeholder;
otherwise a non-`None` value is stringified and stripped, with the empty
string replaced by the `[Empty ...]` placeholder (line 71), and `None`
becomes the `[No ...]` placeholder (line 78). -/
def extractOne (el : Element) (attr : String) (method : String) : String :=
  if el.fault then
    "[Error extracting " ++ attr ++ "]"
  else
    match resolveValue el attr method with
    | some value =>
        let value_str := pyStrip value
        if value_str = "" then "[Empty " ++ attr ++ "]" else value_str
    | none => "[No " ++ attr ++ " attribute]"

/-- One record of the result list: `{"value": ..., "index": ...}`. -/
structure ExtractedValue where
  value : String
  index : Nat
deriving Repr, DecidableEq

/-- `extract_data_from_elements` (app.py lines 39-91): the loop appends one
record per element, the index being `len(results) + 1` at the time of the
append. -/
def extract_data_from_elements (elements : List Element) (attr : String)
    (method : String) : List ExtractedValue :=
  List.foldl
    (fun results el =>
      results ++ [{ value := extractOne el attr method, index := results.length + 1 }])
    [] elements

/-- Recursive reformulation of the result-builder loop, carrying the number of
records already emitted. -/
def buildFrom (attr method : String) (n : Nat) : List Element → List ExtractedValue
  | [] => []
  | el :: rest =>
      { value := extractOne el attr method, index := n + 1 }
        :: buildFrom attr method (n + 1) rest

theorem foldl_eq_buildFrom (attr method : String) :
    ∀ (elements : List Element) (acc : List ExtractedValue),
      List.foldl
        (fun results el =>
          results ++ [{ value := extractOne el attr method, index := results.length + 1 }])
        acc elements
      = acc ++ buildFrom attr method acc.length elements := by
  intro elements
  induction elements with
  | nil => intro acc; simp [buildFrom]
  | cons el rest ih =>
      intro acc
      simp only [List.foldl_cons, buildFrom]
      rw [ih]
      simp

theorem extract_eq_buildFrom (elements : List Element) (attr method : String) :
    extract_data_from_elements elements attr method
      = buildFrom attr method 0 elements := by
  unfold extract_data_from_elements
  rw [foldl_eq_buildFrom]
  simp

theorem buildFrom_length (attr method : String) :
    ∀ (elements : List Element) (n : Nat),
      (buildFrom attr method n elements).length = elements.length := by
  intro elements
  induction elements with
  | nil => intro n; rfl
  | cons el rest ih => intro n; simp [buildFrom, ih]

theorem buildFrom_map_index (attr method : String) :
    ∀ (elements : List Element) (n : Nat),
      (buildFrom attr method n elements).map (fun r => r.index)
        = List.range' (n + 1) elements.length := by
  intro elements
  induction elements with
  | nil => intro n; rfl
  | cons el rest ih =>
      intro n
      simp [buildFrom, List.range'_succ, ih]

theorem buildFrom_map_value (attr method : String) :
    ∀ (elements : List Element) (n : Nat),
      (buildFrom attr method n elements).map (fun r => r.value)
        = elements.map (fun el => extractOne el attr method) := by
  intro elements
  induction elements with
  | nil => intro n; rfl
  | cons el rest ih => intro n; simp [buildFrom, ih]

/-- The inbound JSON body, as read by the handlers: `data.get("url")`,
`data.get("selector")`, `data.get("attribute", "Text Content")`,
`data.get("wait_time", 10)`.  `none` models an absent key. -/
structure Request where
  url : Option String
  selector : Option String
  attr : Option String
  wait_time : Option Nat

/-- Outcome of `requests.get(url, ...)` followed by `raise_for_status()` and
the BeautifulSoup parse: on success a parsed document, modelled as the
function taking a CSS selector to the list `soup.select(selector)`;
otherwise the exception the handler catches (`requests.RequestException` at
line 135, anything else at line 141). -/
inductive HttpOutcome where
  | ok (doc : String → List Element)
  | requestError (msg : String)
  | otherError (msg : String)

/-- The JSON response of a scrape handler.  Error responses carry no
`results` / `total_found` keys, modelled by `[]` and `none`; `execution_time`
is wall-clock and not modelled. -/
structure ScrapeResponse where
  success : Bool
  results : List ExtractedValue
  method : String
  total_found : Option Nat
  error : Option String
deriving Repr, DecidableEq

/-- `scrape_beautifulsoup` (app.py lines 97-146), with the HTTP fetch
abstracted by `net`.  `soup.select(selector) if selector else []` treats both
an absent and an empty selector as "no matches". -/
def scrape_beautifulsoup (net : Option String → HttpOutcome) (req : Request) :
    ScrapeResponse :=
  let attr := req.attr.getD "Text Content"
  match net req.url with
  | .requestError msg =>
      { success := false, results := [], method := "Beautiful Soup",
        total_found := none, error := some ("Network error: " ++ msg) }
  | .otherError msg =>
      { success := false, results := [], method := "Beautiful Soup",
        total_found := none, error := some msg }
  | .ok doc =>
      let elements :=
        match req.selector with
        | some sel => if sel = "" then [] else doc sel
        | none => []
      let results := extract_data_from_elements elements attr "beautifulsoup"
      { success := true, results := results, method := "Beautiful Soup",
        total_found := some results.length, error := none }

/-- Outcome of one Selenium driver step: success, a raised
`WebDriverException` (caught at app.py line 189), or any other exception
(caught at line 195). -/
inductive StepOutcome (α : Type) where
  | ok (a : α)
  | webDriverError (msg : String)
  | otherError (msg : String)

/-- Outcome of the `WebDriverWait(...).until(...)` call: success, a
`TimeoutException` (caught and absorbed at line 170), a raised
`WebDriverException`, or any other exception (both propagate to the outer
handlers). -/
inductive WaitOutcome where
  | ok
  | timeout
  | webDriverError (msg : String)
  | otherError (msg : String)

/-- Oracle for the Selenium driver steps of one invocation:
`setup_chrome_driver()`, `driver.get(url)`,
`WebDriverWait(driver, wait_time).until(presence_of(selector))`, and
`driver.find_elements(By.CSS_SELECTOR, selector)`. -/
structure SeleniumWorld where
  setup : StepOutcome Unit
  navigate : Option String → StepOutcome Unit
  wait : Nat → Option String → WaitOutcome
  find : Option String → StepOutcome (List Element)

/-- An error response of the Selenium handler. -/
def seleniumFailure (msg : String) : ScrapeResponse :=
  { success := false, results := [], method := "Selenium",
    total_found := none, error := some msg }

/-- Result of one run of `scrape_selenium`, instrumented with the driver
lifecycle: `acquired` is true iff `setup_chrome_driver()` returned a driver
(so the local `driver` variable is no longer `None`); `released` is true iff
the `finally` block at line 201 called `driver.quit()`. -/
structure SeleniumRun where
  response : ScrapeResponse
  acquired : Bool
  released : Bool
deriving Repr, DecidableEq

/-- `scrape_selenium` (app.py lines 148-203).  `driver` starts as `None`; if
`setup_chrome_driver()` raises, the `finally` block sees `driver` still
`None` and does not quit.  After a successful setup every path — normal
return, the absorbed wait timeout, or an exception caught by either `except`
clause — runs the `finally` block with a non-`None` driver and quits it. -/
def scrape_selenium (w : SeleniumWorld) (req : Request) : SeleniumRun :=
  let attr := req.attr.getD "Text Content"
  let wait_time := req.wait_time.getD 10
  match w.setup with
  | .webDriverError msg =>
      { response := seleniumFailure ("WebDriver error: " ++ msg),
        acquired := false, released := false }
  | .otherError msg =>
      { response := seleniumFailure msg, acquired := false, released := false }
  | .ok _ =>
      let response :=
        match w.navigate req.url with
        | .webDriverError msg => seleniumFailure ("WebDriver error: " ++ msg)
        | .otherError msg => seleniumFailure msg
        | .ok _ =>
            match w.wait wait_time req.selector with
            | .webDriverError msg => seleniumFailure ("WebDriver error: " ++ msg)
            | .otherError msg => seleniumFailure msg
            | _ =>
                match w.find req.selector with
                | .webDriverError msg => seleniumFailure ("WebDriver error: " ++ msg)
                | .otherError msg => seleniumFailure msg
                | .ok els =>
                    let results := extract_data_from_elements els attr "selenium"
                    { success := true, results := results, method := "Selenium",
                      total_found := some results.length, error := none }
      { response := response, acquired := true, released := true }

/-- `scrape_auto` (app.py lines 205-234), instrumented with the number of
times the Selenium handler is invoked.  The fallback test is
`bs_data.get("success") and bs_data.get("total_found", 0) > 0`. -/
def scrape_auto (net : Option String → HttpOutcome) (w : SeleniumWorld)
    (req : Request) : ScrapeResponse × Nat :=
  let bs_data := scrape_beautifulsoup net req
  if bs_data.success = true ∧ bs_data.total_found.getD 0 > 0 then
    ({ bs_data with method := "Beautiful Soup (Auto)" }, 0)
  else
    let selenium_data := (scrape_selenium w req).response
    ({ selenium_data with method := "Selenium (Auto Fallback)" }, 1)

/-- The Chrome command-line arguments configured by `setup_chrome_driver`
(app.py lines 22-37), in order. -/
def setup_chrome_driver_arguments : List String :=
  ["--headless=new", "--disable-gpu", "--no-sandbox", "--disable-dev-shm-usage",
   "--disable-extensions", "--disable-images", "--disable-javascript",
   "--window-size=1920,1080",
   "--user-agent=Mozilla/5.0 (Windows NT 10.0; Win64; x64) AppleWebKit/537.36"]

/-- One entry of the `results` array posted to `/export-csv`: a JSON object
whose `value` and `index` keys may each be absent.  The handler reads only
`item.get("value", "")`. -/
structure ResultItem where
  value : Option String
  index : Option Int
deriving Repr, DecidableEq

/-- The `metadata` object posted to `/export-csv`; each key may be absent. -/
structure ExportMetadata where
  url : Option String
  selector : Option String
  attr : Option String
  method : Option String
deriving Repr, DecidableEq

/-- Python truthiness of `metadata.get(key)`: present and non-empty. -/
def truthy (o : Option String) : Bool :=
  match o with
  | some s => if s = "" then false else true
  | none => false

/-- Minimal quoting of one CSV field, as the `csv` module's default
`QUOTE_MINIMAL` dialect does: quote iff the field contains the delimiter, the
quote character, or a line-terminator character, doubling embedded quotes. -/
def csvField (s : String) : String :=
  if strContainsChar s ',' || strContainsChar s '"' || strContainsChar s '\n' || strContainsChar s '\r' then
    "\"" ++ s.replace "\"" "\"\"" ++ "\""
  else s

/-- One row written by `csv.writer`: comma-joined fields, CRLF-terminated. -/
def csvRow (fields : List String) : String :=
  String.intercalate "," (fields.map csvField) ++ "\r\n"

/-- The header row built at app.py lines 277-285: always `Index`, `Value`,
then one optional column per truthy metadata key, in this fixed order. -/
def csvHeaders (metadata : ExportMetadata) : List String :=
  ["Index", "Value"]
    ++ (if truthy metadata.url then ["Source URL"] else [])
    ++ (if truthy metadata.selector then ["CSS Selector"] else [])
    ++ (if truthy metadata.attr then ["Attribute"] else [])
    ++ (if truthy metadata.method then ["Method"] else [])

/-- The data row for the item at 0-based position `i` (app.py lines 290-300):
the `Index` cell is `i + 1` from `enumerate`, the `Value` cell is
`item.get("value", "")`, then the same optional metadata columns. -/
def csvDataRow (metadata : ExportMetadata) (i : Nat) (item : ResultItem) :
    List String :=
  [toString (i + 1), item.value.getD ""]
    ++ (if truthy metadata.url then [metadata.url.getD ""] else [])
    ++ (if truthy metadata.selector then [metadata.selector.getD ""] else [])
    ++ (if truthy metadata.attr then [metadata.attr.getD ""] else [])
    ++ (if truthy metadata.method then [metadata.method.getD ""] else [])

/-- The data rows for the items starting at 0-based position `i`, mirroring
`for i, item in enumerate(results)`. -/
def csvDataRowsFrom (metadata : ExportMetadata) (i : Nat) :
    List ResultItem → List (List String)
  | [] => []
  | item :: rest => csvDataRow metadata i item :: csvDataRowsFrom metadata (i + 1) rest

/-- All data rows of one export, from `enumerate(results)` at position 0. -/
def csvDataRows (results : List ResultItem) (metadata : ExportMetadata) :
    List (List String) :=
  csvDataRowsFrom metadata 0 results

/-- The JSON response of `/export-csv`.  The success branch also returns a
`filename` embedding the current wall-clock timestamp, which is not
modelled. -/
structure ExportResponse where
  success : Bool
  csv_content : Option String
  error : Option String
deriving Repr, DecidableEq

/-- `export_csv` (app.py lines 255-315): an empty `results` list is rejected
before any CSV text is built; otherwise the header row followed by one data
row per item is serialized. -/
def export_csv (results : List ResultItem) (metadata : ExportMetadata) :
    ExportResponse :=
  if results.isEmpty then
    { success := false, csv_content := none, error := some "No data to export" }
  else
    let content :=
      String.join ((csvHeaders metadata :: csvDataRows results metadata).map csvRow)
    { success := true, csv_content := some content, error := none }

theorem append3_ne_empty (a b c : String) (ha : a ≠ "") : a ++ b ++ c ≠ "" := by
  intro h
  apply ha
  have hl := congrArg String.length h
  rw [String.length_append, String.length_append, String.length_empty] at hl
  have h0 : a.length = 0 := by omega
  cases a with
  | mk data =>
      cases data with
      | nil => rfl
      | cons ch cs =>
          rw [String.length_mk] at h0
          exact absurd h0 (by simp)

/-! The claim theorems. -/

/-- C2: for every sequence of N matched elements (in particular every
non-empty one), the Result Builder emits exactly one record per element: the
output length is N, the `index` fields are exactly `1..N` in input iteration
order, and the `value` fields are the per-element resolutions in the same
order. -/
theorem C2_result_builder_shape (elements : List Element) (attr method : String) :
    (extract_data_from_elements elements attr method).length = elements.length ∧
    (extract_data_from_elements elements attr method).map (fun r => r.index)
      = List.range' 1 elements.length ∧
    (extract_data_from_elements elements attr method).map (fun r => r.value)
      = elements.map (fun el => extractOne el attr method) := by
  rw [extract_eq_buildFrom]
  refine ⟨buildFrom_length attr method elements 0, ?_, buildFrom_map_value attr method elements 0⟩
  simpa using buildFrom_map_index attr method elements 0

/-- C3: the Value Resolver never outputs the empty string: an absent value
yields `"[No <attribute> attribute]"`, a value that trims to the empty string
yields `"[Empty <attribute>]"`, and any other value is output stringified and
trimmed. -/
theorem C3_resolver_never_empty (el : Element) (attr method : String)
    (h : el.fault = false) :
    extractOne el attr method ≠ "" ∧
    (resolveValue el attr method = none →
        extractOne el attr method = "[No " ++ attr ++ " attribute]") ∧
    (∀ v, resolveValue el attr method = some v →
        extractOne el attr method =
          if pyStrip v = "" then "[Empty " ++ attr ++ "]" else pyStrip v) := by
  refine ⟨?_, ?_, ?_⟩
  · unfold extractOne
    rw [h]
    cases hrv : resolveValue el attr method with
    | none =>
        show "[No " ++ attr ++ " attribute]" ≠ ""
        exact append3_ne_empty "[No " attr " attribute]" (by decide)
    | some v =>
        show (if pyStrip v = "" then "[Empty " ++ attr ++ "]" else pyStrip v) ≠ ""
        by_cases he : pyStrip v = ""
        · rw [if_pos he]
          exact append3_ne_empty "[Empty " attr "]" (by decide)
        · rw [if_neg he]
          exact he
  · intro hn
    unfold extractOne
    rw [h, hn]
    rfl
  · intro v hv
    unfold extractOne
    rw [h, hv]
    rfl

/-- C4: an element whose resolution raises is recorded as the
`"[Error extracting <attribute>]"` placeholder at its position, and every
remaining element is still processed — a single element's fault never aborts
the batch or removes records from it. -/
theorem C4_fault_isolated (method attr : String) (els1 els2 : List Element)
    (el : Element) (h : el.fault = true) :
    (extract_data_from_elements (els1 ++ el :: els2) attr method).length
        = els1.length + 1 + els2.length ∧
    (extract_data_from_elements (els1 ++ el :: els2) attr method).map (fun r => r.value)
      = els1.map (fun e => extractOne e attr method)
          ++ ("[Error extracting " ++ attr ++ "]")
            :: els2.map (fun e => extractOne e attr method) := by
  constructor
  · rw [extract_eq_buildFrom, buildFrom_length]
    simp only [List.length_append, List.length_cons]
    omega
  · rw [extract_eq_buildFrom, buildFrom_map_value]
    simp only [List.map_append, List.map_cons]
    congr 2
    simp [extractOne, h]

/-- C1: the fallback orchestrator returns the static outcome relabelled
`"Beautiful Soup (Auto)"` without invoking the rendered strategy if and only
if the static invocation succeeded with at least one result; otherwise it
invokes the rendered strategy exactly once and returns its outcome relabelled
`"Selenium (Auto Fallback)"`, whatever that outcome is.  The second component
of `scrape_auto` counts rendered-strategy invocations. -/
theorem C1_auto_fallback (net : Option String → HttpOutcome) (w : SeleniumWorld)
    (req : Request) :
    (((scrape_beautifulsoup net req).success = true ∧
        (scrape_beautifulsoup net req).total_found.getD 0 > 0) →
      scrape_auto net w req
        = ({ scrape_beautifulsoup net req with method := "Beautiful Soup (Auto)" }, 0)) ∧
    (¬ ((scrape_beautifulsoup net req).success = true ∧
        (scrape_beautifulsoup net req).total_found.getD 0 > 0) →
      scrape_auto net w req
        = ({ (scrape_selenium w req).response with
              method := "Selenium (Auto Fallback)" }, 1)) := by
  constructor
  · intro hc
    simp only [scrape_auto]
    rw [if_pos hc]
  · intro hc
    simp only [scrape_auto]
    rw [if_neg hc]

/-- C5 evidence: `setup_chrome_driver` configures the browser-automation
session with the `--disable-javascript` Chrome argument, i.e. the rendered
strategy's session is explicitly configured to NOT execute page scripts,
contradicting the specified purpose of the rendered path.  (The surrounding
wait/settle steps of `scrape_selenium` do exist; the contradiction is in the
session configuration.) -/
theorem C5_disable_javascript_configured :
    "--disable-javascript" ∈ setup_chrome_driver_arguments := by
  decide

/-- C6: the browser session of one rendered-strategy invocation is released
exactly when it was acquired — on normal success, on the absorbed wait
timeout, and on every caught exception — and a successful
`setup_chrome_driver()` always acquires one. -/
theorem C6_session_release (w : SeleniumWorld) (req : Request) :
    (scrape_selenium w req).released = (scrape_selenium w req).acquired ∧
    (w.setup = StepOutcome.ok () → (scrape_selenium w req).acquired = true) := by
  unfold scrape_selenium
  cases hs : w.setup with
  | ok a => exact ⟨rfl, fun _ => rfl⟩
  | webDriverError m => exact ⟨rfl, fun hc => StepOutcome.noConfusion hc⟩
  | otherError m => exact ⟨rfl, fun hc => StepOutcome.noConfusion hc⟩

/-- C7: when the selector wait times out but setup, navigation and the final
element query succeed, the rendered invocation still returns a success
response built from whatever elements are present, with no error. -/
theorem C7_wait_timeout_nonfatal (w : SeleniumWorld) (req : Request)
    (els : List Element)
    (hsetup : w.setup = StepOutcome.ok ())
    (hnav : w.navigate req.url = StepOutcome.ok ())
    (hwait : w.wait (req.wait_time.getD 10) req.selector = WaitOutcome.timeout)
    (hfind : w.find req.selector = StepOutcome.ok els) :
    (scrape_selenium w req).response
      = { success := true,
          results := extract_data_from_elements els (req.attr.getD "Text Content") "selenium",
          method := "Selenium",
          total_found :=
            some (extract_data_from_elements els (req.attr.getD "Text Content") "selenium").length,
          error := none } := by
  simp only [scrape_selenium, hsetup, hnav, hwait, hfind]

/-- C8: a static-strategy request whose selector is absent or empty yields a
success response with zero results and `total_found = 0` (given the HTTP
fetch itself succeeded), not an error. -/
theorem C8_empty_selector_success (net : Option String → HttpOutcome) (req : Request)
    (doc : String → List Element)
    (hnet : net req.url = HttpOutcome.ok doc)
    (hsel : req.selector = none ∨ req.selector = some "") :
    scrape_beautifulsoup net req
      = { success := true, results := [], method := "Beautiful Soup",
          total_found := some 0, error := none } := by
  unfold scrape_beautifulsoup
  rw [hnet]
  rcases hsel with hs | hs <;> rw [hs] <;> rfl

theorem string_join_cons (a : String) (l : List String) :
    String.join (a :: l) = a ++ String.join l := by
  apply String.ext
  simp [String.join_eq, String.data_append]

theorem csvDataRowsFrom_congr (md : ExportMetadata) :
    ∀ (xs ys : List ResultItem) (i : Nat),
      xs.map (fun it => it.value) = ys.map (fun it => it.value) →
      csvDataRowsFrom md i xs = csvDataRowsFrom md i ys := by
  intro xs
  induction xs with
  | nil =>
      intro ys i h
      cases ys with
      | nil => rfl
      | cons y ys => simp at h
  | cons x rest ih =>
      intro ys i h
      cases ys with
      | nil => simp at h
      | cons y ys =>
          simp only [List.map_cons, List.cons.injEq] at h
          simp [csvDataRowsFrom, csvDataRow, h.1, ih ys (i + 1) h.2]

theorem csvDataRowsFrom_map_head (md : ExportMetadata) :
    ∀ (xs : List ResultItem) (i : Nat),
      (csvDataRowsFrom md i xs).map (fun row => row.headD "")
        = (List.range' (i + 1) xs.length).map (fun n => toString n) := by
  intro xs
  induction xs with
  | nil => intro i; rfl
  | cons x rest ih =>
      intro i
      rw [csvDataRowsFrom, List.map_cons, List.length_cons, List.range'_succ,
        List.map_cons]
      exact congrArg₂ List.cons rfl (ih (i + 1))

/-- C9: the Export Formatter rejects an export if and only if the supplied
result list is empty; in that case no CSV text is produced, and for every
non-empty result list the produced text is the header row followed by the
data rows, header first. -/
theorem C9_export_empty_rejected (results : List ResultItem)
    (metadata : ExportMetadata) :
    ((export_csv results metadata).success = false ↔ results = []) ∧
    (results = [] →
        export_csv results metadata
          = { success := false, csv_content := none,
              error := some "No data to export" }) ∧
    (results ≠ [] →
        (export_csv results metadata).csv_content
          = some (csvRow (csvHeaders metadata)
              ++ String.join ((csvDataRows results metadata).map csvRow))) := by
  rcases results with _ | ⟨item, rest⟩
  · refine ⟨by simp [export_csv], fun _ => rfl, fun hne => absurd rfl hne⟩
  · refine ⟨by simp [export_csv], fun he => List.noConfusion he, fun _ => ?_⟩
    show some (String.join ((csvHeaders metadata
        :: csvDataRows (item :: rest) metadata).map csvRow)) = _
    rw [List.map_cons, string_join_cons]

/-- C10: the `Index` cell of the i-th exported data row is the row's 1-based
position produced by enumeration, so the export is unchanged when the stored
`index` fields of the records are replaced arbitrarily — only the `value`
fields matter. -/
theorem C10_export_index_from_enumeration (results results' : List ResultItem)
    (metadata : ExportMetadata)
    (h : results.map (fun it => it.value) = results'.map (fun it => it.value)) :
    export_csv results metadata = export_csv results' metadata ∧
    (csvDataRows results metadata).map (fun row => row.headD "")
      = (List.range' 1 results.length).map (fun n => toString n) := by
  constructor
  · have hlen : results.length = results'.length := by
      have hc := congrArg List.length h
      simpa using hc
    have hrows : csvDataRows results metadata = csvDataRows results' metadata :=
      csvDataRowsFrom_congr metadata results results' 0 h
    have hempty : results.isEmpty = results'.isEmpty := by
      rcases results with _ | ⟨x, xs⟩ <;> rcases results' with _ | ⟨y, ys⟩ <;>
        simp_all
    unfold export_csv
    rw [hempty, hrows]
  · simpa using csvDataRowsFrom_map_head metadata results 0

/-! Concrete fixtures used by the witness theorems. -/

/-- An element whose text content is `"  Hello  "` and which carries no
attributes. -/
def elPlain : Element :=
  { text := "  Hello  ", bsGet := fun _ => none, getAttribute := fun _ => none,
    getProperty := fun _ => none, fault := false }

/-- An element whose resolution raises an unexpected exception. -/
def elFault : Element :=
  { text := "x", bsGet := fun _ => none, getAttribute := fun _ => none,
    getProperty := fun _ => none, fault := true }

/-- A parsed document with one `h1` element and nothing else. -/
def docHello : String → List Element := fun sel => if sel = "h1" then [elPlain] else []

/-- An HTTP oracle that always returns `docHello`. -/
def netOK : Option String → HttpOutcome := fun _ => HttpOutcome.ok docHello

/-- An HTTP oracle whose GET always raises `requests.RequestException`. -/
def netFail : Option String → HttpOutcome := fun _ => HttpOutcome.requestError "boom"

/-- The scenario request of the spec: `h1` text content. -/
def reqH1 : Request :=
  { url := some "https://example.com", selector := some "h1",
    attr := some "Text Content", wait_time := none }

/-- A request carrying no selector. -/
def reqNoSel : Request :=
  { url := some "https://example.com", selector := none, attr := none,
    wait_time := none }

/-- A Selenium oracle where every step succeeds and no element matches. -/
def worldIdle : SeleniumWorld :=
  { setup := StepOutcome.ok (), navigate := fun _ => StepOutcome.ok (),
    wait := fun _ _ => WaitOutcome.ok, find := fun _ => StepOutcome.ok [] }

/-- A Selenium oracle where the explicit wait times out but one element is
present at query time. -/
def worldTimeout : SeleniumWorld :=
  { setup := StepOutcome.ok (), navigate := fun _ => StepOutcome.ok (),
    wait := fun _ _ => WaitOutcome.timeout, find := fun _ => StepOutcome.ok [elPlain] }

/-- Export metadata with every key absent. -/
def mdEmpty : ExportMetadata :=
  { url := none, selector := none, attr := none, method := none }

/-- An export record whose stored index (7) does not match its position. -/
def itemHello : ResultItem := { value := some "Hello", index := some 7 }

/-! Witnesses. -/

theorem C1_auto_fallback_witness :
    scrape_auto netOK worldIdle reqH1
      = ({ scrape_beautifulsoup netOK reqH1 with method := "Beautiful Soup (Auto)" }, 0) ∧
    scrape_auto netFail worldIdle reqH1
      = ({ (scrape_selenium worldIdle reqH1).response with
            method := "Selenium (Auto Fallback)" }, 1) :=
  ⟨(C1_auto_fallback netOK worldIdle reqH1).1 (by constructor <;> decide),
   (C1_auto_fallback netFail worldIdle reqH1).2 (by decide)⟩

theorem C3_resolver_never_empty_witness :
    extractOne elPlain "href" "beautifulsoup" ≠ "" ∧
    extractOne elPlain "href" "beautifulsoup" = "[No href attribute]" :=
  ⟨(C3_resolver_never_empty elPlain "href" "beautifulsoup" rfl).1,
   (C3_resolver_never_empty elPlain "href" "beautifulsoup" rfl).2.1 rfl⟩

theorem C4_fault_isolated_witness :
    (extract_data_from_elements ([] ++ elFault :: [elPlain])
        "Text Content" "beautifulsoup").length = 2 ∧
    (extract_data_from_elements ([] ++ elFault :: [elPlain])
        "Text Content" "beautifulsoup").map (fun r => r.value)
      = ["[Error extracting Text Content]", "Hello"] := by
  have hthm := C4_fault_isolated "beautifulsoup" "Text Content" [] [elPlain] elFault rfl
  exact ⟨hthm.1, by rw [hthm.2]; rfl⟩

theorem C6_session_release_witness :
    (scrape_selenium worldTimeout reqH1).released
        = (scrape_selenium worldTimeout reqH1).acquired ∧
    (scrape_selenium worldTimeout reqH1).acquired = true :=
  ⟨(C6_session_release worldTimeout reqH1).1,
   (C6_session_release worldTimeout reqH1).2 rfl⟩

theorem C7_wait_timeout_nonfatal_witness :
    (scrape_selenium worldTimeout reqH1).response
      = { success := true, results := [{ value := "Hello", index := 1 }],
          method := "Selenium", total_found := some 1, error := none } :=
  (C7_wait_timeout_nonfatal worldTimeout reqH1 [elPlain] rfl rfl rfl rfl).trans
    (by decide)

theorem C8_empty_selector_success_witness :
    scrape_beautifulsoup netOK reqNoSel
      = { success := true, results := [], method := "Beautiful Soup",
          total_found := some 0, error := none } :=
  C8_empty_selector_success netOK reqNoSel docHello rfl (Or.inl rfl)

theorem C9_export_empty_rejected_witness :
    export_csv [] mdEmpty
      = { success := false, csv_content := none,
          error := some "No data to export" } ∧
    (export_csv [itemHello] mdEmpty).csv_content
      = some "Index,Value\r\n1,Hello\r\n" := by
  refine ⟨(C9_export_empty_rejected [] mdEmpty).2.1 rfl, ?_⟩
  rw [(C9_export_empty_rejected [itemHello] mdEmpty).2.2 (by decide)]
  rfl

theorem C10_export_index_from_enumeration_witness :
    export_csv [{ value := some "Hello", index := some 99 }] mdEmpty
      = export_csv [{ value := some "Hello", index := none }] mdEmpty ∧
    (csvDataRows [{ value := some "Hello", index := some 99 }] mdEmpty).map
        (fun row => row.headD "")
      = ["1"] := by
  have hthm := C10_export_index_from_enumeration
    [{ value := some "Hello", index := some 99 }]
    [{ value := some "Hello", index := none }] mdEmpty rfl
  exact ⟨hthm.1, by rw [hthm.2]; rfl⟩

end WebScraper
